import Mathlib

/-!
Verification development for the object-store-wasm repository: a shallow
embedding, in Lean, of the store-construction, URL-resolution, request
building, header-based metadata extraction, retry and multipart logic of the
Rust sources, together with theorems settling the specification claims.

External crates (url, reqwest, ehttp, chrono, backon, the AWS SDK) are
represented at their interfaces: a parsed URL is a record of scheme, host and
path; the chrono RFC-2822 parser is an abstract parameter; reqwest send
resolves with a response for any HTTP status and errors only on transport
failure, exactly as the fetch-backed wasm client behaves.
-/

deriving instance DecidableEq for Except

namespace ObjectStoreWasm

/-- Splitting of a character list at a separator; mirrors the semantics of
Rust split (and of String.splitOn for a one-character separator) while
staying kernel-computable. -/
def splitChars (sep : Char) : List Char → List (List Char)
  | [] => [[]]
  | c :: rest =>
    match splitChars sep rest with
    | h :: t => if c = sep then [] :: h :: t else (c :: h) :: t
    | [] => if c = sep then [[], []] else [[c]]

/-- Split a string at every occurrence of a separator character. -/
def splitOnChar (sep : Char) (s : String) : List String :=
  (splitChars sep s.data).map (fun l => ⟨l⟩)

/-- Join strings with a separator, the inverse of splitting. -/
def joinSep (sep : String) : List String → String
  | [] => ""
  | [x] => x
  | x :: rest => x ++ sep ++ joinSep sep rest

/-- Rust str starts_with on strings, computed on the character lists. -/
def startsWithLit (s pre : String) : Bool := pre.data.isPrefixOf s.data

/-- Rust str ends_with on strings, computed on the character lists. -/
def endsWithLit (s suf : String) : Bool := suf.data.isSuffixOf s.data

/-- Drop the first character of a string. -/
def dropOne (s : String) : String := ⟨s.data.drop 1⟩

/-- A parsed URL as produced by the external url crate: scheme (without
separator), optional host string, and the path beginning with a slash when
non-empty (for cannot-be-a-base or empty paths the path field is just the
raw remainder, and path segment extraction yields none). -/
structure Url where
  scheme : String
  host : Option String
  path : String
deriving DecidableEq

/-- Url::path_segments of the url crate: available exactly when the path
starts with a slash, in which case it is the list of slash-separated
segments after the leading slash (a trailing slash yields an empty final
segment, the bare path "/" yields one empty segment). -/
def Url.pathSegments (u : Url) : Option (List String) :=
  if startsWithLit u.path "/" then some (splitOnChar '/' (dropOne u.path)) else none

/-- The first path segment, as computed by
`parsed.path_segments().into_iter().flatten().next()` in aws/builder.rs. -/
def Url.firstPathSegment (u : Url) : Option String :=
  u.pathSegments.bind List.head?

/-- Rust `host.splitn(4, '.')`: at most four dot-separated pieces, the last
piece holding the undivided remainder. -/
def splitn4Dots (s : String) : List String :=
  match splitOnChar '.' s with
  | a :: b :: c :: rest =>
    if rest = [] then [a, b, c] else [a, b, c, joinSep "." rest]
  | l => l

/-- itertools collect_tuple into a 4-tuple: succeeds exactly on a
four-element list. -/
def collectTuple4 (l : List String) : Option (String × String × String × String) :=
  match l with
  | [a, b, c, d] => some (a, b, c, d)
  | _ => none

/-- The ConfigError enum of aws/builder.rs. -/
inductive ConfigError where
  | unknownConfigurationKey (key : String)
  | unknownUrlScheme (scheme : String)
  | urlNotRecognised (url : Url)
  | unableToParseUrl (url : Url)
deriving DecidableEq

/-- The object_store error kinds reachable in this repository
(`object_store::Error`): UnknownConfigurationKey carries store and key; the
repository folds its other failures into Generic tagged with a store name,
NotFound with the path, NotSupported and NotImplemented. -/
inductive OSError where
  | unknownConfigurationKey (store key : String)
  | generic (store : String)
  | notFound (path : String)
  | notSupported
  | notImplemented
deriving DecidableEq

/-- `From<ConfigError> for object_store::Error` in aws/builder.rs:
UnknownConfigurationKey keeps the key, every other variant becomes
Generic with store S3. -/
def configErrorToOSError : ConfigError → OSError
  | .unknownConfigurationKey key => .unknownConfigurationKey "S3" key
  | _ => .generic "S3"

/-- AmazonS3ConfigKey of aws/builder.rs. -/
inductive AmazonS3ConfigKey where
  | accessKeyId
  | secretAccessKey
  | region
  | sessionToken
  | bucket
  | endpoint
deriving DecidableEq

/-- `AmazonS3ConfigKey::from_str` (aws/builder.rs lines 85-99): each key and
its aliases parse to the corresponding variant; anything else is an
UnknownConfigurationKey error naming the offending key. -/
def AmazonS3ConfigKey.fromStr (s : String) : Except OSError AmazonS3ConfigKey :=
  if s = "aws_access_key_id" ∨ s = "access_key_id" then .ok .accessKeyId
  else if s = "aws_secret_access_key" ∨ s = "secret_access_key" then .ok .secretAccessKey
  else if s = "aws_region" ∨ s = "region" then .ok .region
  else if s = "aws_bucket" ∨ s = "aws_bucket_name" ∨ s = "bucket_name" ∨ s = "bucket" then
    .ok .bucket
  else if s = "aws_endpoint_url" ∨ s = "aws_endpoint" ∨ s = "endpoint_url" ∨ s = "endpoint" then
    .ok .endpoint
  else if s = "aws_session_token" ∨ s = "aws_token" ∨ s = "session_token" ∨ s = "token" then
    .ok .sessionToken
  else .error (.unknownConfigurationKey "S3" s)

/-- AmazonS3Builder (aws/builder.rs lines 101-110). The url field holds the
already-parsed URL; the source stores the string and re-parses it inside
build, with parse failure covered by the unableToParseUrl error variant. -/
structure AmazonS3Builder where
  bucket : Option String := none
  region : Option String := none
  access_key_id : Option String := none
  secret_access_key : Option String := none
  session_token : Option String := none
  endpoint : Option String := none
  url : Option Url := none
deriving DecidableEq

/-- AmazonS3Builder::new. -/
def AmazonS3Builder.new : AmazonS3Builder := {}

/-- AmazonS3Builder::with_url. -/
def AmazonS3Builder.with_url (b : AmazonS3Builder) (u : Url) : AmazonS3Builder :=
  { b with url := some u }

/-- AmazonS3Builder::with_config (aws/builder.rs lines 121-132). -/
def AmazonS3Builder.with_config (b : AmazonS3Builder) (key : AmazonS3ConfigKey)
    (value : String) : AmazonS3Builder :=
  match key with
  | .accessKeyId => { b with access_key_id := some value }
  | .secretAccessKey => { b with secret_access_key := some value }
  | .region => { b with region := some value }
  | .bucket => { b with bucket := some value }
  | .endpoint => { b with endpoint := some value }
  | .sessionToken => { b with session_token := some value }

/-- AmazonS3Builder::parse_url (aws/builder.rs lines 134-162): requires a
host; the s3 and s3a schemes take the host as bucket; an https host is split
into at most four dot labels and matched against the amazonaws.com and
r2.cloudflarestorage.com shapes (region, synthesized endpoint, bucket from
the first path segment when present); unmatched https hosts are
urlNotRecognised and any other scheme is unknownUrlScheme. -/
def AmazonS3Builder.parse_url (b : AmazonS3Builder) (u : Url) :
    Except ConfigError AmazonS3Builder :=
  match u.host with
  | none => .error (.urlNotRecognised u)
  | some host =>
    if u.scheme = "s3" ∨ u.scheme = "s3a" then .ok { b with bucket := some host }
    else if u.scheme = "https" then
      match collectTuple4 (splitn4Dots host) with
      | some ("s3", rg, "amazonaws", "com") =>
        match u.firstPathSegment with
        | some bk => .ok { b with region := some rg, bucket := some bk }
        | none => .ok { b with region := some rg }
      | some (account, "r2", "cloudflarestorage", "com") =>
        match u.firstPathSegment with
        | some bk =>
          .ok { b with region := some "auto",
                        endpoint := some ("https://" ++ account ++ ".r2.cloudflarestorage.com"),
                        bucket := some bk }
        | none =>
          .ok { b with region := some "auto",
                        endpoint := some ("https://" ++ account ++ ".r2.cloudflarestorage.com") }
      | _ => .error (.urlNotRecognised u)
    else .error (.unknownUrlScheme u.scheme)

/-- The built AmazonS3 store together with the configuration captured by its
SDK client: bucket, region, endpoint URL, the credentials, and whether the
HTTP connector was constructed as `Adapter::new(access_key_id == "access_key")`
(aws/builder.rs line 183). -/
structure AmazonS3 where
  bucket : String
  region : Option String
  endpoint : Option String
  access_key_id : String
  secret_access_key : String
  session_token : Option String
  use_mock : Bool
deriving DecidableEq

/-- The credential and bucket extraction of AmazonS3Builder::build
(aws/builder.rs lines 167-190): the access key, secret key and bucket are
required (their absence is Error::Unknown, which converts to a Generic S3
error); the connector mock flag is the comparison of the access key id with
the literal string access_key (line 183). -/
def AmazonS3Builder.finish_build (b : AmazonS3Builder) : Except OSError AmazonS3 :=
  match b.access_key_id with
  | none => .error (.generic "S3")
  | some access_key_id =>
    match b.secret_access_key with
    | none => .error (.generic "S3")
    | some secret_access_key =>
      match b.bucket with
      | none => .error (.generic "S3")
      | some bucket =>
        .ok { bucket := bucket
              region := b.region
              endpoint := b.endpoint
              access_key_id := access_key_id
              secret_access_key := secret_access_key
              session_token := b.session_token
              use_mock := access_key_id == "access_key" }

/-- AmazonS3Builder::build entry (aws/builder.rs lines 163-166): when a URL
was supplied, parse_url runs first, overwriting builder fields, before the
credential and bucket extraction of finish_build. -/
def AmazonS3Builder.build (b : AmazonS3Builder) : Except OSError AmazonS3 :=
  match b.url with
  | some u =>
    match AmazonS3Builder.parse_url { b with url := none } u with
    | .ok b2 => b2.finish_build
    | .error e => .error (configErrorToOSError e)
  | none => b.finish_build

/-- ObjectStoreScheme of parse.rs. -/
inductive ObjectStoreScheme where
  | amazonS3
  | http
deriving DecidableEq

/-- Rust `s.split_once('/')`: the text before the first slash and the text
after it, when the string holds at least one slash. -/
def splitOnceSlash (s : String) : Option (String × String) :=
  match splitOnChar '/' s with
  | [] => none
  | [_] => none
  | a :: rest => some (a, joinSep "/" rest)

/-- The strip_bucket closure of parse.rs line 71:
`url.path().strip_prefix('/')?.split_once('/')?.1`. -/
def strip_bucket (u : Url) : Option String :=
  if startsWithLit u.path "/" then (splitOnceSlash (dropOne u.path)).map Prod.snd
  else none

/-- ObjectStoreScheme::parse (parse.rs lines 70-105): classifies the URL into
the S3 or HTTP store and picks the raw object path; unrecognised scheme and
host combinations become the Unrecognised error, surfaced as a Generic error
tagged URL. -/
def ObjectStoreScheme.parse (u : Url) : Except OSError (ObjectStoreScheme × String) :=
  match u.host with
  | some host =>
    if u.scheme = "s3" ∨ u.scheme = "s3a" then .ok (.amazonS3, u.path)
    else if u.scheme = "http" then .ok (.http, u.path)
    else if u.scheme = "https" then
      if endsWithLit host "amazonaws.com" then
        if startsWithLit host "s3" then .ok (.amazonS3, (strip_bucket u).getD "")
        else .ok (.amazonS3, u.path)
      else if endsWithLit host "r2.cloudflarestorage.com" then
        .ok (.amazonS3, (strip_bucket u).getD "")
      else .ok (.http, u.path)
    else .error (.generic "URL")
  | none => .error (.generic "URL")

/-- The object_store path type is external to this repository;
Path::from_url_path on the plain (unencoded) inputs exercised here splits on
slashes and drops empty segments. The subsequent Path::parse round trip in
parse_url_opts is the identity on such a path. -/
def pathFromUrlPath (s : String) : String :=
  joinSep "/" ((splitOnChar '/' s).filter (fun seg => seg ≠ ""))

/-- The store value returned by parse_url_opts: the closed union of the two
variants, with the HTTP store keeping the URL trimmed before its path. -/
inductive ParsedStore where
  | s3 (store : AmazonS3)
  | http (base : Url)
deriving DecidableEq

/-- parse_url_opts together with the builder_opts macro (parse.rs lines
108-119 and 135-169): resolve the scheme, then for S3 fold the option list
into the builder, where a key that fails AmazonS3ConfigKey::fromStr is
silently skipped (the Err arm of the macro returns the builder unchanged),
and build; for HTTP construct the store from the URL cut before its path. -/
def parse_url_opts (u : Url) (options : List (String × String)) :
    Except OSError (ParsedStore × String) :=
  match ObjectStoreScheme.parse u with
  | .error e => .error e
  | .ok (scheme, rawPath) =>
    let path := pathFromUrlPath rawPath
    match scheme with
    | .amazonS3 =>
      let builder := options.foldl
        (fun b kv =>
          match AmazonS3ConfigKey.fromStr kv.1 with
          | .ok key => b.with_config key kv.2
          | .error _ => b)
        (AmazonS3Builder.new.with_url u)
      match builder.build with
      | .ok store => .ok (.s3 store, path)
      | .error e => .error e
    | .http => .ok (.http { u with path := "" }, path)

/-- object_store GetRange: a half-open bounded range, an open-ended offset
range, or the last-n-bytes suffix request. -/
inductive GetRange where
  | bounded (start stop : Nat)
  | offset (start : Nat)
  | suffix (n : Nat)
deriving DecidableEq

/-- object_store GetOptions as used by this repository. The two date options
are carried as milliseconds since the epoch, the representation the source
converts chrono values into before use. -/
structure GetOptions where
  if_match : Option String := none
  if_none_match : Option String := none
  if_modified_since : Option Int := none
  if_unmodified_since : Option Int := none
  range : Option GetRange := none
  version : Option String := none
  head : Bool := false
deriving DecidableEq

/-- The Range header text built by the HTTP variant, identically in
GetOptionsExt::with_get_options (http/mod.rs lines 129-138) and
HttpObjectStore::get_headers (lib.rs lines 149-158): bounded uses the
saturating decrement of the exclusive end, offset leaves the end open, and
suffix produces bytes=0-N. -/
def http_range_header : GetRange → String
  | .bounded start stop => "bytes=" ++ toString start ++ "-" ++ toString (stop - 1)
  | .offset start => "bytes=" ++ toString start ++ "-"
  | .suffix n => "bytes=0-" ++ toString n

/-- The Range header text built by the S3 variant (aws/mod.rs lines
114-127): bounded and offset as in the HTTP variant, suffix produces
bytes=-N. -/
def aws_range_header : GetRange → String
  | .bounded start stop => "bytes=" ++ toString start ++ "-" ++ toString (stop - 1)
  | .offset start => "bytes=" ++ toString start ++ "-"
  | .suffix n => "bytes=-" ++ toString n

/-- Modelled from the spec: the wire format the specification states for the
Range header, `bytes=start-(end-1)` for bounded, `bytes=start-` for offset
and `bytes=-N` for suffix; written for comparison with the range header
builders embedded from the source. -/
def spec_range_header : GetRange → String
  | .bounded start stop => "bytes=" ++ toString start ++ "-" ++ toString (stop - 1)
  | .offset start => "bytes=" ++ toString start ++ "-"
  | .suffix n => "bytes=-" ++ toString n

/-- The effective range computed by the HTTP variant after a successful get,
identically in InnerClient::get_opts (http/mod.rs lines 252-257) and
HttpObjectStore::get_opts (lib.rs lines 258-263), as a function of the
requested range option and the backend-reported size. -/
def resolved_range (r : Option GetRange) (size : Nat) : Nat × Nat :=
  match r with
  | some (.bounded start stop) => (start, stop)
  | some (.offset start) => (start, size)
  | some (.suffix n) => (0, n)
  | none => (0, size)

/-- Modelled from the spec: the effective range the specification states,
resolving a request against the backend-reported size with Suffix(N)
yielding the final N bytes; written for comparison with resolved_range
embedded from the source. -/
def spec_resolved_range (r : Option GetRange) (size : Nat) : Nat × Nat :=
  match r with
  | some (.bounded start stop) => (start, stop)
  | some (.offset start) => (start, size)
  | some (.suffix n) => (size - n, size)
  | none => (0, size)

/-- HeaderConfig of http/mod.rs lines 30-42 (duplicated in lib.rs). -/
structure HeaderConfig where
  etag_required : Bool
  last_modified_required : Bool
  version_header : Option String
deriving DecidableEq

/-- The HeaderError enum of http/mod.rs lines 44-69. The BadHeader variant
(non-ASCII header bytes) is unreachable in the model, which carries header
values as strings. -/
inductive HeaderError where
  | missingEtag
  | missingLastModified
  | missingContentLength
  | invalidLastModified (last_modified : String)
  | invalidContentLength (content_length : String)
deriving DecidableEq

/-- Lookup in a response header map; reqwest and ehttp store the names this
repository reads in their lowercase canonical form, so the model uses exact
lookup on lowercase names. -/
def headers_get (headers : List (String × String)) (name : String) : Option String :=
  (headers.find? (fun kv => kv.1 == name)).map Prod.snd

/-- Decimal digit accumulation over a character list; none on the first
non-digit character. -/
def parseNatAux : List Char → Nat → Option Nat
  | [], acc => some acc
  | c :: rest, acc =>
    if c.isDigit then parseNatAux rest (acc * 10 + (c.toNat - 48)) else none

/-- Parse a nonempty all-digit character list as a natural number. -/
def parseNatChars (cs : List Char) : Option Nat :=
  match cs with
  | [] => none
  | _ => parseNatAux cs 0

/-- Rust u64 parsing of a header value: an optional plus sign, then digits,
within the u64 range. -/
def parse_u64 (s : String) : Option Nat :=
  let n? : Option Nat :=
    match s.data with
    | '+' :: rest => parseNatChars rest
    | cs => parseNatChars cs
  match n? with
  | some n => if n < 2 ^ 64 then some n else none
  | none => none

/-- ObjectMeta populated by header extraction: location, the last-modified
instant in milliseconds (zero is the epoch default), the authoritative total
size, and the optional e_tag and version strings. -/
structure ObjectMeta where
  location : String
  last_modified : Int
  size : Nat
  e_tag : Option String
  version : Option String
deriving DecidableEq

/-- header_meta (http/mod.rs lines 76-119, duplicated in lib.rs lines
82-119), parameterised by the external chrono RFC-2822 parser: Last-Modified
is parsed when present, required-or-epoch when absent; a missing ETag is
tolerated as none unless required; Content-Length is then unconditionally
required and parsed as u64; the version is read from the configured header
name when one is set. -/
def header_meta (parse_rfc2822 : String → Option Int) (location : String)
    (headers : List (String × String)) (cfg : HeaderConfig) :
    Except HeaderError ObjectMeta :=
  let lm_result : Except HeaderError Int :=
    match headers_get headers "last-modified" with
    | some lm =>
      match parse_rfc2822 lm with
      | some d => .ok d
      | none => .error (.invalidLastModified lm)
    | none => if cfg.last_modified_required then .error .missingLastModified else .ok 0
  match lm_result with
  | .error e => .error e
  | .ok last_modified =>
    let etag_result : Except HeaderError (Option String) :=
      match headers_get headers "etag" with
      | some t => .ok (some t)
      | none => if cfg.etag_required then .error .missingEtag else .ok none
    match etag_result with
    | .error e => .error e
    | .ok e_tag =>
      match headers_get headers "content-length" with
      | none => .error .missingContentLength
      | some content_length =>
        match parse_u64 content_length with
        | none => .error (.invalidContentLength content_length)
        | some size =>
          .ok { location := location
                last_modified := last_modified
                size := size
                e_tag := e_tag
                version := cfg.version_header.bind (fun h => headers_get headers h) }

/-- The HEADER_CONFIG constant of InnerClient (http/mod.rs lines 171-175)
and HttpObjectStore (lib.rs lines 129-133): nothing beyond Content-Length is
required and no version header is configured. -/
def http_header_config : HeaderConfig :=
  { etag_required := false, last_modified_required := false, version_header := none }

/-- The observable outcome of one fetch attempt: the server answered with
some HTTP status, or the transport failed before a response existed. -/
inductive FetchOutcome where
  | response (status : Nat)
  | connectFailure
deriving DecidableEq

/-- A reqwest response, reduced to the status the embedded code inspects. -/
structure ReqwestResponse where
  status : Nat
deriving DecidableEq

/-- A reqwest error; its status method yields a status only for errors
manufactured by error_for_status, which this repository never calls, so
errors produced by send carry none. -/
structure ReqwestError where
  status : Option Nat
deriving DecidableEq

/-- reqwest RequestBuilder::send on the wasm fetch backend: any HTTP
response, success or not, resolves Ok; only transport-level failure is an
Err, and that error has no status. -/
def reqwest_send (o : FetchOutcome) : Except ReqwestError ReqwestResponse :=
  match o with
  | .response s => .ok { status := s }
  | .connectFailure => .error { status := none }

/-- backon ExponentialBuilder::default() allows three retries after the
initial call (with doubling delays, a time-level behaviour outside this
embedding). -/
def backon_max_times : Nat := 3

/-- The backon retry combinator applied to a send closure (http/mod.rs lines
197-199): attempt i consults the i-th fetch outcome; an Ok result returns
immediately, an Err is retried while attempts remain, and the final Err is
returned once the budget is exhausted. -/
def retry_loop (outcomes : Nat → FetchOutcome) (i : Nat) :
    Nat → Except ReqwestError ReqwestResponse
  | 0 => reqwest_send (outcomes i)
  | n + 1 =>
    match reqwest_send (outcomes i) with
    | .ok r => .ok r
    | .error _ => retry_loop outcomes (i + 1) n

/-- HTTP method of a built request. -/
inductive HttpMethod where
  | get
  | head
deriving DecidableEq

/-- A header value placed on a built request: a literal string, or a date
rendered through the chrono format string
`%a, %d %b %Y %H:%M:%S GMT` (http/mod.rs line 150), represented by the
instant it formats. -/
inductive HeaderValue where
  | str (s : String)
  | httpDate (millis : Int)
deriving DecidableEq

/-- GetOptionsExt::with_get_options (http/mod.rs lines 126-161): appends, in
source order, the Range header when a range is requested, then If-Match,
If-None-Match, If-Unmodified-Since and If-Modified-Since for each option
that is set, and nothing else. -/
def with_get_options (headers : List (String × HeaderValue)) (options : GetOptions) :
    List (String × HeaderValue) :=
  let hs := headers
  let hs := match options.range with
    | some r => hs ++ [("range", .str (http_range_header r))]
    | none => hs
  let hs := match options.if_match with
    | some tag => hs ++ [("if-match", .str tag)]
    | none => hs
  let hs := match options.if_none_match with
    | some tag => hs ++ [("if-none-match", .str tag)]
    | none => hs
  let hs := match options.if_unmodified_since with
    | some date => hs ++ [("if-unmodified-since", .httpDate date)]
    | none => hs
  let hs := match options.if_modified_since with
    | some date => hs ++ [("if-modified-since", .httpDate date)]
    | none => hs
  hs

/-- A built HTTP-variant request: the method chosen in
InnerClient::get_request (http/mod.rs lines 192-195) and the headers from
with_get_options. -/
structure HttpRequest where
  method : HttpMethod
  headers : List (String × HeaderValue)
deriving DecidableEq

/-- The request built by InnerClient::get_request before sending: HEAD
exactly when the head option is set, GET otherwise, with the option-derived
headers. -/
def InnerClient.build_request (options : GetOptions) : HttpRequest :=
  { method := if options.head then .head else .get
    headers := with_get_options [] options }

/-- InnerClient::get_request (http/mod.rs lines 189-224): send under the
default exponential retry policy; a transport error is mapped through its
(always absent) status, where 404 and 405 would become NotFound and
everything else is a Generic HTTP error; a response to a ranged request with
a status other than 206 is NotSupported. -/
def InnerClient.get_request (outcomes : Nat → FetchOutcome) (path : String)
    (options : GetOptions) : Except OSError ReqwestResponse :=
  match retry_loop outcomes 0 backon_max_times with
  | .error e =>
    .error (match e.status with
      | some 404 => OSError.notFound path
      | some 405 => OSError.notFound path
      | _ => OSError.generic "HTTP")
  | .ok res =>
    if options.range.isSome && !(res.status == 206) then .error OSError.notSupported
    else .ok res

/-- InnerClient::delete (http/mod.rs lines 264-282): one send with no retry
combinator, consuming only the first fetch outcome; an Ok response of any
status yields success, and a transport error is mapped through its (always
absent) status, where 404 would become NotFound and everything else a
Generic HTTP error. -/
def InnerClient.delete (outcomes : Nat → FetchOutcome) (path : String) :
    Except OSError Unit :=
  match reqwest_send (outcomes 0) with
  | .ok _ => .ok ()
  | .error e =>
    .error (match e.status with
      | some 404 => OSError.notFound path
      | _ => OSError.generic "HTTP")

/-- Outcome of one AWS SDK operation against the backend. -/
inductive SdkOutcome where
  | success
  | failure
deriving DecidableEq

/-- AmazonS3::delete (aws/mod.rs lines 64-73): DeleteObject is sent and any
SDK error becomes a Generic S3 error; the S3 protocol answers success (204)
for a nonexistent key, so that case is the success outcome. -/
def AmazonS3.delete_result (o : SdkOutcome) : Except OSError Unit :=
  match o with
  | .success => .ok ()
  | .failure => .error (.generic "S3")

/-- The GetObject request assembled by AmazonS3::get_opts, reduced to the
fields that the source sets. The if_unmodified_since field exists on the SDK
request builder but the source never sets it. -/
structure S3GetRequest where
  bucket : String
  key : String
  if_match : Option String := none
  if_none_match : Option String := none
  if_modified_since : Option Int := none
  if_unmodified_since : Option Int := none
  range : Option String := none
deriving DecidableEq

/-- AmazonS3::get_opts request building (aws/mod.rs lines 74-127): always a
GetObject call on the bucket and key; if_match and if_none_match are handed
through; a present if_modified_since sets the if_modified_since builder
field; a present if_unmodified_since converts its date and then also calls
the if_modified_since setter (aws/mod.rs line 110); a range option sets the
formatted Range string. The chrono-to-SDK date conversion round trips
through milliseconds and is the identity here. -/
def AmazonS3.build_get_request (store : AmazonS3) (location : String)
    (options : GetOptions) : S3GetRequest :=
  let r : S3GetRequest := { bucket := store.bucket, key := location }
  let r := match options.if_match with
    | some tag => { r with if_match := some tag }
    | none => r
  let r := match options.if_none_match with
    | some tag => { r with if_none_match := some tag }
    | none => r
  let r := match options.if_modified_since with
    | some date => { r with if_modified_since := some date }
    | none => r
  let r := match options.if_unmodified_since with
    | some date => { r with if_modified_since := some date }
    | none => r
  let r := match options.range with
    | some rg => { r with range := some (aws_range_header rg) }
    | none => r
  r

/-- Rust i32 parsing: optional sign, digits, within the i32 range. -/
def parse_i32 (s : String) : Option Int :=
  let n? : Option Int :=
    match s.data with
    | '-' :: rest => (parseNatChars rest).map (fun n => -(n : Int))
    | '+' :: rest => (parseNatChars rest).map (fun n => (n : Int))
    | cs => (parseNatChars cs).map (fun n => (n : Int))
  match n? with
  | some n => if -(2 ^ 31) ≤ n ∧ n < 2 ^ 31 then some n else none
  | none => none

/-- Two-sided complement interpretation of a natural number as an i32, the
meaning of the Rust `as i32` cast applied to the part number. -/
def i32_cast (n : Nat) : Int :=
  if n % 2 ^ 32 < 2 ^ 31 then ((n % 2 ^ 32 : Nat) : Int)
  else ((n % 2 ^ 32 : Nat) : Int) - 2 ^ 32

/-- PartId of the object_store multipart interface: the identifier returned
for an uploaded part, which this repository fills with the response ETag. -/
structure PartId where
  content_id : String
deriving DecidableEq

/-- A CompletedPart as submitted to CompleteMultipartUpload, reduced to the
part number the source sets. -/
structure CompletedPart where
  part_number : Int
deriving DecidableEq

/-- The part number wired into the UploadPart request by
MultiPartUpload::put_part (aws/multipart.rs lines 22-43): the index plus
one, cast to i32. -/
def MultiPartUpload.part_number_sent (part_idx : Nat) : Int :=
  i32_cast (part_idx + 1)

/-- MultiPartUpload::put_part response handling: the returned PartId carries
the response ETag; a response without one is Error::Unknown, a Generic S3
error. -/
def MultiPartUpload.put_part_result (response_e_tag : Option String) :
    Except OSError PartId :=
  match response_e_tag with
  | some tag => .ok { content_id := tag }
  | none => .error (.generic "S3")

/-- The completed-part list assembled by MultiPartUpload::complete
(aws/multipart.rs lines 45-66): each PartId in the given order has its
content_id parsed as the i32 part number; the first identifier that fails to
parse aborts the collection with a ParseInt error, a Generic S3 error. No
reordering of any kind is applied. -/
def MultiPartUpload.complete_parts : List PartId → Except OSError (List CompletedPart)
  | [] => .ok []
  | x :: rest =>
    match parse_i32 x.content_id with
    | none => .error (.generic "S3")
    | some n =>
      match MultiPartUpload.complete_parts rest with
      | .ok l => .ok ({ part_number := n } :: l)
      | .error e => .error e

/-- Whether a completed-part list is in nondecreasing part-number order. -/
def sorted_by_part_number : List CompletedPart → Bool
  | [] => true
  | [_] => true
  | a :: b :: rest =>
    decide (a.part_number ≤ b.part_number) && sorted_by_part_number (b :: rest)

/-- An SDK-level response as produced by the transport adapter. -/
structure SdkResponse where
  status : Nat
  body : String
deriving DecidableEq

/-- The canned body returned by MockedHttpClient (aws/builder.rs lines
317-327). -/
def mocked_response_body : String :=
  "\x7b\n            \"Functions\": [\n                \x7b\n                    \"FunctionName\": \"function-name-1\"\n                \x7d,\n                \x7b\n                    \"FunctionName\": \"function-name-2\"\n                \x7d\n            ],\n            \"NextMarker\": null\n        \x7d"

/-- MockedHttpClient::send (aws/builder.rs lines 312-332): ignores the
request entirely and returns a fixed 200 response with the canned body,
performing no network call. -/
def MockedHttpClient.send : SdkResponse :=
  { status := 200, body := mocked_response_body }

/-- Outcome of the browser fetch performed by BrowserHttpClient. -/
inductive BrowserOutcome where
  | ok (resp : SdkResponse)
  | jsError
deriving DecidableEq

/-- Adapter::call (aws/builder.rs lines 362-384): the spawned task runs the
mocked client when the adapter was built with use_mock true, otherwise the
real fetch-based browser client; a JavaScript-level failure of the chosen
client panics inside the spawned task, surfacing as a channel error. -/
def Adapter.call (use_mock : Bool) (browser : BrowserOutcome) :
    Except OSError SdkResponse :=
  if use_mock then .ok MockedHttpClient.send
  else
    match browser with
    | .ok r => .ok r
    | .jsError => .error (.generic "connector")

/-- parse_url only rewrites bucket, region and endpoint: the credential
fields of the builder pass through untouched on every success path. -/
theorem parse_url_keeps_credentials (b : AmazonS3Builder) (u : Url)
    (r : AmazonS3Builder) (h : AmazonS3Builder.parse_url b u = .ok r) :
    r.access_key_id = b.access_key_id ∧ r.secret_access_key = b.secret_access_key ∧
      r.session_token = b.session_token := by
  unfold AmazonS3Builder.parse_url at h
  repeat' split at h
  all_goals cases h
  all_goals exact ⟨rfl, rfl, rfl⟩

/-- finish_build reads the credentials, bucket, region and endpoint straight
off the builder, and computes the mock flag from the access key id. -/
theorem finish_build_fields (b : AmazonS3Builder) (s : AmazonS3)
    (h : b.finish_build = .ok s) :
    b.access_key_id = some s.access_key_id ∧
      s.use_mock = (s.access_key_id == "access_key") ∧
      s.region = b.region ∧ s.endpoint = b.endpoint ∧ b.bucket = some s.bucket := by
  unfold AmazonS3Builder.finish_build at h
  repeat' split at h
  all_goals cases h
  all_goals simp_all

/-- Claim C1, counterexample: an option map holding the unrecognised key
zzz_unknown does not fail store construction; parse_url_opts returns a
fully built S3 store, the unknown entry silently dropped, contradicting the
claim that construction fails with UnknownConfigurationKey and no store is
returned. -/
theorem claim1_counterexample :
    parse_url_opts { scheme := "s3", host := some "mybucket", path := "/key" }
        [("access_key_id", "a"), ("secret_access_key", "b"), ("zzz_unknown", "v")] =
      .ok (.s3 { bucket := "mybucket", region := none, endpoint := none,
                 access_key_id := "a", secret_access_key := "b",
                 session_token := none, use_mock := false }, "key") := by
  decide

/-- Claim C1 (amended): AmazonS3ConfigKey::from_str does reject every
unrecognised key with UnknownConfigurationKey naming that key, but
parse_url_opts silently skips options whose key fails to parse: appending
such an option to the map leaves the construction result unchanged, so
construction never fails on an unknown key. -/
theorem claim1_unknown_keys_ignored (k : String) (e : OSError)
    (h : AmazonS3ConfigKey.fromStr k = .error e) :
    e = OSError.unknownConfigurationKey "S3" k ∧
      ∀ (u : Url) (opts : List (String × String)) (v : String),
        parse_url_opts u (opts ++ [(k, v)]) = parse_url_opts u opts := by
  constructor
  · unfold AmazonS3ConfigKey.fromStr at h
    split_ifs at h
    injection h with hh
    exact hh.symm
  · intro u opts v
    unfold parse_url_opts
    cases hp : ObjectStoreScheme.parse u with
    | error e2 => rfl
    | ok p =>
      obtain ⟨scheme, rawPath⟩ := p
      cases scheme with
      | http => rfl
      | amazonS3 => simp only [List.foldl_append, List.foldl_cons, List.foldl_nil, h]

/-- Claim C1, witness: the key zzz is unknown, from_str names it, and adding
it to an option map leaves parse_url_opts unchanged. -/
theorem claim1_witness :
    AmazonS3ConfigKey.fromStr "zzz" =
        .error (.unknownConfigurationKey "S3" "zzz") ∧
      parse_url_opts { scheme := "s3", host := some "mybucket", path := "/key" }
          ([("access_key_id", "a")] ++ [("zzz", "v")]) =
        parse_url_opts { scheme := "s3", host := some "mybucket", path := "/key" }
          [("access_key_id", "a")] :=
  ⟨by decide,
   (claim1_unknown_keys_ignored "zzz" (.unknownConfigurationKey "S3" "zzz")
      (by decide)).2 _ _ _⟩

/-- Claim C2, counterexample: a builder given both the URL s3://urlbucket/key
and the explicit bucket configuration confbucket builds a store whose bucket
is urlbucket, not the explicitly configured value, refuting the claim that
configuration values override URL-derived values. -/
theorem claim2_counterexample :
    AmazonS3Builder.build
        ((((AmazonS3Builder.new.with_url
              { scheme := "s3", host := some "urlbucket", path := "/key" }).with_config
            .bucket "confbucket").with_config .accessKeyId "a").with_config
          .secretAccessKey "s") =
      .ok { bucket := "urlbucket", region := none, endpoint := none,
            access_key_id := "a", secret_access_key := "s", session_token := none,
            use_mock := false } ∧
    ("urlbucket" : String) ≠ "confbucket" := by decide

/-- Claim C2 (amended): build applies URL parsing after the explicit
configuration and URL-derived values override configured ones: for a builder
holding an s3-scheme URL, the built bucket always equals the URL host no
matter what bucket was configured, while region and endpoint, which the s3
scheme does not derive, keep their configured values. -/
theorem claim2_url_overrides_config (b : AmazonS3Builder) (u : Url) (host : String)
    (s : AmazonS3) (hurl : b.url = some u) (hscheme : u.scheme = "s3")
    (hhost : u.host = some host) (hbuild : b.build = .ok s) :
    s.bucket = host ∧ s.region = b.region ∧ s.endpoint = b.endpoint := by
  unfold AmazonS3Builder.build at hbuild
  rw [hurl] at hbuild
  have hp : AmazonS3Builder.parse_url { b with url := none } u =
      .ok { b with url := none, bucket := some host } := by
    unfold AmazonS3Builder.parse_url
    rw [hhost, hscheme]
    simp
  dsimp only at hbuild
  rw [hp] at hbuild
  dsimp only at hbuild
  have hf := finish_build_fields _ _ hbuild
  refine ⟨?_, hf.2.2.1, hf.2.2.2.1⟩
  have hb : ({ b with url := none, bucket := some host } : AmazonS3Builder).bucket =
      some s.bucket := hf.2.2.2.2
  simp at hb
  exact hb.symm

/-- Claim C2, witness: at the concrete builder of the counterexample input,
the built bucket equals the URL host urlbucket and region and endpoint keep
their configured absence. -/
theorem claim2_witness :
    ({ bucket := "urlbucket", region := none, endpoint := none,
       access_key_id := "a", secret_access_key := "s", session_token := none,
       use_mock := false } : AmazonS3).bucket = "urlbucket" ∧
    ({ bucket := "urlbucket", region := none, endpoint := none,
       access_key_id := "a", secret_access_key := "s", session_token := none,
       use_mock := false } : AmazonS3).region = none :=
  let b := (((AmazonS3Builder.new.with_url
      { scheme := "s3", host := some "urlbucket", path := "/key" }).with_config
      .bucket "confbucket").with_config .accessKeyId "a").with_config
      .secretAccessKey "s"
  let h := claim2_url_overrides_config b
    { scheme := "s3", host := some "urlbucket", path := "/key" } "urlbucket"
    { bucket := "urlbucket", region := none, endpoint := none,
      access_key_id := "a", secret_access_key := "s", session_token := none,
      use_mock := false } rfl rfl rfl (by decide)
  ⟨h.1, h.2.1⟩

/-- Claim C3 (code bug evaluation): the S3 variant maps the successful
DeleteObject outcome, which the S3 protocol gives for a nonexistent key, to
success as the claim states; but the HTTP variant also returns success when
the server answers 404, because reqwest send resolves Ok for any HTTP
response and error_for_status is never called, so the NotFound mapping arm
in InnerClient::delete is unreachable. -/
theorem claim3_delete_eval :
    AmazonS3.delete_result .success = .ok () ∧
      InnerClient.delete (fun _ => FetchOutcome.response 404) "missing" = .ok () ∧
      (∀ outcomes path, InnerClient.delete outcomes path ≠
        .error (OSError.notFound path)) := by
  refine ⟨by decide, by decide, ?_⟩
  intro outcomes path h
  unfold InnerClient.delete at h
  cases ho : outcomes 0 <;> rw [ho] at h <;> simp [reqwest_send] at h

/-- Claim C4, counterexample: for the suffix request of the final five
bytes, the HTTP variant emits bytes=0-5 where the claim (and the S3
variant) requires bytes=-5. -/
theorem claim4_counterexample :
    http_range_header (.suffix 5) = "bytes=0-5" ∧
      spec_range_header (.suffix 5) = "bytes=-5" ∧
      http_range_header (.suffix 5) ≠ spec_range_header (.suffix 5) := by decide

/-- Claim C4 (amended): the bounded and offset formats are exactly as
claimed on both variants, and the S3 variant also formats suffix requests as
claimed; the HTTP variant alone deviates, formatting Suffix(N) as
bytes=0-N, a first-N-bytes request. -/
theorem claim4_range_header_formats :
    (∀ r, aws_range_header r = spec_range_header r) ∧
      (∀ a b, http_range_header (.bounded a b) = spec_range_header (.bounded a b)) ∧
      (∀ o, http_range_header (.offset o) = spec_range_header (.offset o)) ∧
      (∀ n, http_range_header (.suffix n) = "bytes=0-" ++ toString n) :=
  ⟨fun r => by cases r <;> rfl, fun _ _ => rfl, fun _ => rfl, fun _ => rfl⟩

/-- Claim C5, counterexample: for a suffix request of the final four bytes
of a ten-byte object, the HTTP variant reports the effective range [0, 4)
where the claim requires the last four bytes [6, 10). -/
theorem claim5_counterexample :
    resolved_range (some (.suffix 4)) 10 = (0, 4) ∧
      spec_resolved_range (some (.suffix 4)) 10 = (6, 10) ∧
      resolved_range (some (.suffix 4)) 10 ≠
        spec_resolved_range (some (.suffix 4)) 10 := by decide

/-- Claim C5 (amended): the effective range is resolved against the
backend-reported size exactly as claimed for the absent, bounded and offset
cases; Suffix(N) alone deviates, resolving to [0, N) instead of the final N
bytes. -/
theorem claim5_resolved_range :
    (∀ size, resolved_range none size = (0, size)) ∧
      (∀ a b size, resolved_range (some (.bounded a b)) size = (a, b)) ∧
      (∀ o size, resolved_range (some (.offset o)) size = (o, size)) ∧
      (∀ n size, resolved_range (some (.suffix n)) size = (0, n)) :=
  ⟨fun _ => rfl, fun _ _ _ => rfl, fun _ _ => rfl, fun _ _ => rfl⟩

/-- Claim C6 (code bug evaluation): on the HTTP variant every set option
maps to its own header and HEAD is chosen exactly for headOnly, but on the
S3 variant a set ifUnmodifiedSince is wired into the if_modified_since
setter (aws/mod.rs line 110), leaving If-Unmodified-Since unset, and the S3
variant builds a GetObject call with no HEAD switch at all. -/
theorem claim6_precondition_eval :
    (AmazonS3.build_get_request
        { bucket := "b", region := none, endpoint := none, access_key_id := "a",
          secret_access_key := "s", session_token := none, use_mock := false }
        "k" { if_unmodified_since := some 5 }).if_modified_since = some 5 ∧
      (AmazonS3.build_get_request
        { bucket := "b", region := none, endpoint := none, access_key_id := "a",
          secret_access_key := "s", session_token := none, use_mock := false }
        "k" { if_unmodified_since := some 5 }).if_unmodified_since = none ∧
      with_get_options [] { if_unmodified_since := some 5 } =
        [("if-unmodified-since", HeaderValue.httpDate 5)] ∧
      with_get_options [] { if_match := some "t" } =
        [("if-match", HeaderValue.str "t")] ∧
      with_get_options [] { if_none_match := some "t" } =
        [("if-none-match", HeaderValue.str "t")] ∧
      with_get_options [] { if_modified_since := some 5 } =
        [("if-modified-since", HeaderValue.httpDate 5)] ∧
      (InnerClient.build_request { head := true }).method = .head ∧
      (InnerClient.build_request {}).method = .get := by decide

/-- Claim C7, counterexample: completing with the part identifiers 2 then 1
submits the completed-part list in exactly that order, which is not sorted
by part number, refuting the claim that complete sorts before submission. -/
theorem claim7_counterexample :
    MultiPartUpload.complete_parts [⟨"2"⟩, ⟨"1"⟩] = .ok [⟨2⟩, ⟨1⟩] ∧
      sorted_by_part_number [⟨2⟩, ⟨1⟩] = false := by decide

/-- Claim C7 (amended): the part uploaded at index i is submitted with part
number i+1 (for indices within the i32 range of the cast); complete parses
each part identifier as its part number and submits the list in the order
given, with no sorting, and any non-integer identifier makes complete fail
with the conversion-derived Generic S3 error. -/
theorem claim7_multipart_amended :
    (∀ i : Nat, i + 1 < 2 ^ 31 →
        MultiPartUpload.part_number_sent i = (i : Int) + 1) ∧
      (∀ (parts : List PartId) (l : List CompletedPart),
        MultiPartUpload.complete_parts parts = .ok l →
        l.map CompletedPart.part_number =
          parts.filterMap (fun p => parse_i32 p.content_id)) ∧
      (∀ (parts : List PartId) (p : PartId), p ∈ parts →
        parse_i32 p.content_id = none →
        MultiPartUpload.complete_parts parts = .error (.generic "S3")) := by
  refine ⟨?_, ?_, ?_⟩
  · intro i h
    unfold MultiPartUpload.part_number_sent i32_cast
    have hm : (i + 1) % 2 ^ 32 = i + 1 := Nat.mod_eq_of_lt (by omega)
    rw [hm, if_pos (by omega)]
    push_cast
    ring
  · intro parts
    induction parts with
    | nil =>
      intro l h
      cases h
      rfl
    | cons x rest ih =>
      intro l h
      unfold MultiPartUpload.complete_parts at h
      cases hx : parse_i32 x.content_id with
      | none => rw [hx] at h; cases h
      | some n =>
        rw [hx] at h
        cases hr : MultiPartUpload.complete_parts rest with
        | error e => rw [hr] at h; cases h
        | ok l2 =>
          rw [hr] at h
          cases h
          simp [List.filterMap_cons, hx, ih l2 hr]
  · intro parts
    induction parts with
    | nil => intro p hp; cases hp
    | cons x rest ih =>
      intro p hp hnone
      rcases List.mem_cons.mp hp with he | hm
      · subst he
        unfold MultiPartUpload.complete_parts
        rw [hnone]
      · unfold MultiPartUpload.complete_parts
        cases hx : parse_i32 x.content_id with
        | none => rfl
        | some n => rw [ih p hm hnone]

/-- Claim C7, witness: index 4 is sent as part number 5; the identifiers 1
then 2 are submitted as part numbers 1 then 2 in order; the non-integer
identifier x fails complete. -/
theorem claim7_witness :
    MultiPartUpload.part_number_sent 4 = 5 ∧
      List.map CompletedPart.part_number [⟨1⟩, ⟨2⟩] =
        List.filterMap (fun p => parse_i32 p.content_id)
          [(⟨"1"⟩ : PartId), ⟨"2"⟩] ∧
      MultiPartUpload.complete_parts [⟨"x"⟩] = .error (.generic "S3") :=
  ⟨claim7_multipart_amended.1 4 (by decide),
   claim7_multipart_amended.2.1 [⟨"1"⟩, ⟨"2"⟩] [⟨1⟩, ⟨2⟩] (by decide),
   claim7_multipart_amended.2.2 [⟨"x"⟩] ⟨"x"⟩ (by decide) (by decide)⟩

/-- Agreement lemma for the retry loop: its result depends only on the
outcomes of the attempts inside the retry budget. -/
theorem retry_loop_agree (n : Nat) : ∀ (i : Nat) (out1 out2 : Nat → FetchOutcome),
    (∀ j, i ≤ j → j ≤ i + n → out1 j = out2 j) →
    retry_loop out1 i n = retry_loop out2 i n := by
  induction n with
  | zero =>
    intro i o1 o2 h
    unfold retry_loop
    rw [h i (le_refl i) (by omega)]
  | succ n ih =>
    intro i o1 o2 h
    unfold retry_loop
    rw [h i (le_refl i) (by omega)]
    cases hs : reqwest_send (o2 i) with
    | ok r => rfl
    | error e => exact ih (i + 1) o1 o2 (fun j h1 h2 => h j (by omega) (by omega))

/-- Claim C8, counterexample: with a transport failure on the first attempt
and a successful response on the second, a GET recovers through the retry
loop while a DELETE over the very same outcome sequence fails at once: the
DELETE of the HTTP variant is not retried, refuting the claim that all of
GET, HEAD and DELETE are retried on transport failure. -/
theorem claim8_counterexample :
    InnerClient.delete
        (fun i => if i = 0 then FetchOutcome.connectFailure else FetchOutcome.response 204)
        "p" = .error (.generic "HTTP") ∧
      InnerClient.get_request
        (fun i => if i = 0 then FetchOutcome.connectFailure else FetchOutcome.response 200)
        "p" {} = .ok { status := 200 } := by decide

/-- Claim C8 (amended): GET and HEAD requests, issued through get_request,
are retried under the bounded default exponential backoff policy only on
transport-level failure: an application-level response on an attempt is
taken immediately whatever its status, at most 1 + backon_max_times
attempts are ever consulted, and a transport failure is retried; DELETE is
issued exactly once, consulting only the first attempt. -/
theorem claim8_retry_amended :
    (∀ (out1 out2 : Nat → FetchOutcome) (path : String) (options : GetOptions)
        (s : Nat), out1 0 = FetchOutcome.response s →
        out2 0 = FetchOutcome.response s →
        InnerClient.get_request out1 path options =
          InnerClient.get_request out2 path options) ∧
      (∀ (out1 out2 : Nat → FetchOutcome) (path : String) (options : GetOptions),
        (∀ j, j ≤ backon_max_times → out1 j = out2 j) →
        InnerClient.get_request out1 path options =
          InnerClient.get_request out2 path options) ∧
      (∀ (out : Nat → FetchOutcome) (s : Nat),
        out 0 = FetchOutcome.connectFailure → out 1 = FetchOutcome.response s →
        retry_loop out 0 backon_max_times = .ok { status := s }) ∧
      (∀ (out1 out2 : Nat → FetchOutcome) (path : String), out1 0 = out2 0 →
        InnerClient.delete out1 path = InnerClient.delete out2 path) := by
  refine ⟨?_, ?_, ?_, ?_⟩
  · intro o1 o2 path opts s h1 h2
    have e1 : retry_loop o1 0 backon_max_times = .ok { status := s } := by
      unfold backon_max_times retry_loop
      rw [h1]
      rfl
    have e2 : retry_loop o2 0 backon_max_times = .ok { status := s } := by
      unfold backon_max_times retry_loop
      rw [h2]
      rfl
    unfold InnerClient.get_request
    rw [e1, e2]
  · intro o1 o2 path opts h
    unfold InnerClient.get_request
    rw [retry_loop_agree backon_max_times 0 o1 o2 (fun j _ h2 => h j (by omega))]
  · intro out s h0 h1
    unfold backon_max_times retry_loop
    rw [h0]
    show retry_loop out 1 2 = .ok { status := s }
    unfold retry_loop
    rw [h1]
    rfl
  · intro o1 o2 path h
    unfold InnerClient.delete
    rw [h]

/-- Claim C8, witness: the agreement and retry facts at concrete outcome
sequences. -/
theorem claim8_witness :
    InnerClient.get_request (fun _ => FetchOutcome.response 500) "p" {} =
        InnerClient.get_request
          (fun i => if i = 0 then FetchOutcome.response 500
                    else FetchOutcome.connectFailure) "p" {} ∧
      retry_loop
          (fun i => if i = 0 then FetchOutcome.connectFailure
                    else FetchOutcome.response 206) 0 backon_max_times =
        .ok { status := 206 } ∧
      InnerClient.delete (fun _ => FetchOutcome.connectFailure) "p" =
        InnerClient.delete
          (fun i => if i = 0 then FetchOutcome.connectFailure
                    else FetchOutcome.response 200) "p" :=
  ⟨claim8_retry_amended.1 _ _ "p" {} 500 rfl rfl,
   claim8_retry_amended.2.2.1 _ 206 rfl rfl,
   claim8_retry_amended.2.2.2 _ _ "p" rfl⟩

/-- Claim C9: for every response header set and every strictness
configuration, header-based metadata extraction fails whenever the
Content-Length header is absent. -/
theorem claim9_content_length_required (parse_rfc2822 : String → Option Int)
    (location : String) (headers : List (String × String)) (cfg : HeaderConfig)
    (h : headers_get headers "content-length" = none) :
    (header_meta parse_rfc2822 location headers cfg).isOk = false := by
  unfold header_meta
  repeat' split
  all_goals first
    | rfl
    | simp_all

/-- Claim C9, witness: extraction over an empty header set fails under the
lenient HTTP-variant configuration. -/
theorem claim9_witness :
    headers_get [] "content-length" = none ∧
      (header_meta (fun _ => none) "x" [] http_header_config).isOk = false :=
  ⟨rfl, claim9_content_length_required (fun _ => none) "x" [] http_header_config rfl⟩

/-- Claim C10: every store built by AmazonS3Builder::build carries the
configured access key id, its connector runs the mocked client exactly when
that key equals the literal access_key, the mocked client answers every
request with the fixed canned 200 response without I/O, and any other key
routes requests to the real fetch-based browser client. -/
theorem claim10_mock_selection (b : AmazonS3Builder) (s : AmazonS3)
    (h : b.build = .ok s) :
    b.access_key_id = some s.access_key_id ∧
      (s.use_mock = true ↔ s.access_key_id = "access_key") ∧
      (∀ browser, Adapter.call true browser = .ok MockedHttpClient.send) ∧
      MockedHttpClient.send.status = 200 ∧
      (∀ resp, Adapter.call false (.ok resp) = .ok resp) := by
  unfold AmazonS3Builder.build at h
  have key : b.access_key_id = some s.access_key_id ∧
      s.use_mock = (s.access_key_id == "access_key") := by
    split at h
    · split at h
      · rename_i b2 hp
        have hc := parse_url_keeps_credentials _ _ _ hp
        have hf := finish_build_fields _ _ h
        refine ⟨?_, hf.2.1⟩
        have : ({ b with url := none } : AmazonS3Builder).access_key_id =
            b.access_key_id := rfl
        rw [← this, ← hc.1]
        exact hf.1
      · cases h
    · exact ⟨(finish_build_fields _ _ h).1, (finish_build_fields _ _ h).2.1⟩
  refine ⟨key.1, ?_, fun _ => rfl, rfl, fun _ => rfl⟩
  rw [key.2]
  exact beq_iff_eq

/-- Claim C10, witness: a builder configured with the access key id
access_key builds a store whose mock flag is set, and the iff of the claim
holds at that store. -/
theorem claim10_witness :
    AmazonS3Builder.build
        { access_key_id := some "access_key", secret_access_key := some "s",
          bucket := some "bk" } =
      .ok { bucket := "bk", region := none, endpoint := none,
            access_key_id := "access_key", secret_access_key := "s",
            session_token := none, use_mock := true } ∧
      (({ bucket := "bk", region := none, endpoint := none,
          access_key_id := "access_key", secret_access_key := "s",
          session_token := none, use_mock := true } : AmazonS3).use_mock = true ↔
        ({ bucket := "bk", region := none, endpoint := none,
           access_key_id := "access_key", secret_access_key := "s",
           session_token := none, use_mock := true } : AmazonS3).access_key_id =
          "access_key") :=
  ⟨by decide,
   (claim10_mock_selection
      { access_key_id := some "access_key", secret_access_key := some "s",
        bucket := some "bk" }
      { bucket := "bk", region := none, endpoint := none,
        access_key_id := "access_key", secret_access_key := "s",
        session_token := none, use_mock := true } (by decide)).2.1⟩

end ObjectStoreWasm
